import Mathlib

/-!
Shallow embedding of the personal-finance backend (src/server/storage.ts and
src/server/routes.ts).  JavaScript `Map` objects are modelled as association
lists `List (Nat × α)` where `set` replaces the first entry with a matching
key in place (appending when absent) and `get` returns the first match, which
coincides with `Map` semantics on the key-unique states a `Map` can hold.
Monetary amounts (JS numbers) are modelled as `ℚ`, dates (JS `Date`, compared
through their millisecond value) as `Int`.
-/

namespace FinanceApp

/-- Transaction/category type: the string union "income" | "expense". -/
inductive TxType where
  | income
  | expense
deriving DecidableEq

structure User where
  id : Nat
  username : String
  password : String
  email : String
  name : String
  createdAt : Int
deriving DecidableEq

structure Account where
  id : Nat
  userId : Nat
  name : String
  type : String
  balance : ℚ
  isConnected : Bool
deriving DecidableEq

structure Category where
  id : Nat
  userId : Nat
  name : String
  type : TxType
  color : String
  icon : String
deriving DecidableEq

structure Transaction where
  id : Nat
  userId : Nat
  accountId : Nat
  categoryId : Option Nat
  amount : ℚ
  description : String
  date : Int
  type : TxType
  paymentMethod : String
deriving DecidableEq

structure Budget where
  id : Nat
  userId : Nat
  categoryId : Nat
  amount : ℚ
  period : String
  startDate : Int
  endDate : Int
deriving DecidableEq

/-- Insert shape of a User: all fields except the server-assigned id and createdAt. -/
structure InsertUser where
  username : String
  password : String
  email : String
  name : String
deriving DecidableEq

structure InsertAccount where
  userId : Nat
  name : String
  type : String
  balance : ℚ
  isConnected : Bool
deriving DecidableEq

structure InsertCategory where
  userId : Nat
  name : String
  type : TxType
  color : String
  icon : String
deriving DecidableEq

structure InsertTransaction where
  userId : Nat
  accountId : Nat
  categoryId : Option Nat
  amount : ℚ
  description : String
  date : Int
  type : TxType
  paymentMethod : String
deriving DecidableEq

structure InsertBudget where
  userId : Nat
  categoryId : Nat
  amount : ℚ
  period : String
  startDate : Int
  endDate : Int
deriving DecidableEq

/-- JS Map.get: first entry with the given key. -/
def mapGet (m : List (Nat × α)) (k : Nat) : Option α :=
  (m.find? (fun p => p.1 == k)).map (fun p => p.2)

/-- JS Map.set: replace the entry with the given key in place, append when absent. -/
def mapSet : List (Nat × α) → Nat → α → List (Nat × α)
  | [], k, v => [(k, v)]
  | p :: rest, k, v => if p.1 = k then (k, v) :: rest else p :: mapSet rest k v

/-- JS Array.from(map.values()): the stored values in insertion order. -/
def mapValues (m : List (Nat × α)) : List α :=
  m.map (fun p => p.2)

/-- The MemStorage class: five keyed maps plus one id counter per entity kind. -/
structure MemStorage where
  users : List (Nat × User)
  accounts : List (Nat × Account)
  categories : List (Nat × Category)
  transactions : List (Nat × Transaction)
  budgets : List (Nat × Budget)
  userIdCounter : Nat
  accountIdCounter : Nat
  categoryIdCounter : Nat
  transactionIdCounter : Nat
  budgetIdCounter : Nat
deriving DecidableEq

/-- The MemStorage constructor: empty maps, every counter starts at 1. -/
def emptyStorage : MemStorage :=
  { users := [], accounts := [], categories := [], transactions := [], budgets := [],
    userIdCounter := 1, accountIdCounter := 1, categoryIdCounter := 1,
    transactionIdCounter := 1, budgetIdCounter := 1 }

/-- The only fallible storage operation signals this error (the thrown Error in
updateAccountBalance, "Account with ID ... not found"). -/
inductive StorageError where
  | notFound (id : Nat)
deriving DecidableEq

def getUser (s : MemStorage) (id : Nat) : Option User :=
  mapGet s.users id

def getAccount (s : MemStorage) (id : Nat) : Option Account :=
  mapGet s.accounts id

def getCategory (s : MemStorage) (id : Nat) : Option Category :=
  mapGet s.categories id

def getTransaction (s : MemStorage) (id : Nat) : Option Transaction :=
  mapGet s.transactions id

def getBudget (s : MemStorage) (id : Nat) : Option Budget :=
  mapGet s.budgets id

/-- MemStorage.createUser: stamps the next user id and createdAt (the `now`
argument models `new Date()`). -/
def createUser (s : MemStorage) (insertUser : InsertUser) (now : Int) :
    MemStorage × User :=
  let id := s.userIdCounter
  let user : User :=
    { id := id, username := insertUser.username, password := insertUser.password,
      email := insertUser.email, name := insertUser.name, createdAt := now }
  ({ s with users := mapSet s.users id user, userIdCounter := id + 1 }, user)

/-- MemStorage.createAccount. -/
def createAccount (s : MemStorage) (insertAccount : InsertAccount) :
    MemStorage × Account :=
  let id := s.accountIdCounter
  let account : Account :=
    { id := id, userId := insertAccount.userId, name := insertAccount.name,
      type := insertAccount.type, balance := insertAccount.balance,
      isConnected := insertAccount.isConnected }
  ({ s with accounts := mapSet s.accounts id account, accountIdCounter := id + 1 }, account)

/-- MemStorage.createCategory. -/
def createCategory (s : MemStorage) (insertCategory : InsertCategory) :
    MemStorage × Category :=
  let id := s.categoryIdCounter
  let category : Category :=
    { id := id, userId := insertCategory.userId, name := insertCategory.name,
      type := insertCategory.type, color := insertCategory.color,
      icon := insertCategory.icon }
  ({ s with categories := mapSet s.categories id category, categoryIdCounter := id + 1 }, category)

/-- MemStorage.createTransaction. -/
def createTransaction (s : MemStorage) (insertTransaction : InsertTransaction) :
    MemStorage × Transaction :=
  let id := s.transactionIdCounter
  let transaction : Transaction :=
    { id := id, userId := insertTransaction.userId,
      accountId := insertTransaction.accountId,
      categoryId := insertTransaction.categoryId,
      amount := insertTransaction.amount,
      description := insertTransaction.description,
      date := insertTransaction.date, type := insertTransaction.type,
      paymentMethod := insertTransaction.paymentMethod }
  ({ s with transactions := mapSet s.transactions id transaction, transactionIdCounter := id + 1 }, transaction)

/-- MemStorage.createBudget. -/
def createBudget (s : MemStorage) (insertBudget : InsertBudget) :
    MemStorage × Budget :=
  let id := s.budgetIdCounter
  let budget : Budget :=
    { id := id, userId := insertBudget.userId, categoryId := insertBudget.categoryId,
      amount := insertBudget.amount, period := insertBudget.period,
      startDate := insertBudget.startDate, endDate := insertBudget.endDate }
  ({ s with budgets := mapSet s.budgets id budget, budgetIdCounter := id + 1 }, budget)

/-- MemStorage.updateAccountBalance: throws (error component) when the id is
absent, otherwise stores a copy of the account with the new balance. -/
def updateAccountBalance (s : MemStorage) (id : Nat) (balance : ℚ) :
    MemStorage × Except StorageError Account :=
  match mapGet s.accounts id with
  | none => (s, Except.error (StorageError.notFound id))
  | some account =>
    let updatedAccount := { account with balance := balance }
    ({ s with accounts := mapSet s.accounts id updatedAccount },
      Except.ok updatedAccount)

/-- MemStorage.getAccountsByUserId. -/
def getAccountsByUserId (s : MemStorage) (userId : Nat) : List Account :=
  (mapValues s.accounts).filter (fun account => account.userId == userId)

/-- MemStorage.getCategoriesByUserId. -/
def getCategoriesByUserId (s : MemStorage) (userId : Nat) : List Category :=
  (mapValues s.categories).filter (fun category => category.userId == userId)

/-- MemStorage.getBudgetsByUserId. -/
def getBudgetsByUserId (s : MemStorage) (userId : Nat) : List Budget :=
  (mapValues s.budgets).filter (fun budget => budget.userId == userId)

/-- MemStorage.getTransactionsByUserId: filter by user, sort descending by
date (the comparator (a, b) => b.date - a.date; Array.prototype.sort is a
stable sort, as is List.mergeSort). -/
def getTransactionsByUserId (s : MemStorage) (userId : Nat) : List Transaction :=
  ((mapValues s.transactions).filter
      (fun transaction => transaction.userId == userId)).mergeSort
    (fun a b => decide (b.date ≤ a.date))

/-- MemStorage.getTransactionsByDateRange: user filter plus inclusive bounds
on both ends, then the same descending-by-date sort. -/
def getTransactionsByDateRange (s : MemStorage) (userId : Nat)
    (startDate endDate : Int) : List Transaction :=
  ((mapValues s.transactions).filter
      (fun transaction =>
        transaction.userId == userId && decide (startDate ≤ transaction.date) &&
          decide (transaction.date ≤ endDate))).mergeSort
    (fun a b => decide (b.date ≤ a.date))

/-- MemStorage.getRecentTransactions: filter, sort descending by date, then
slice(0, limit). -/
def getRecentTransactions (s : MemStorage) (userId : Nat) (limit : Nat) :
    List Transaction :=
  (((mapValues s.transactions).filter
        (fun transaction => transaction.userId == userId)).mergeSort
      (fun a b => decide (b.date ≤ a.date))).take limit

/-- POST /api/transactions handler core (after schema validation): create the
transaction, then look up the referenced account; when it exists, add the
amount for income or subtract it for expense and update the balance; when it
does not exist the balance step is skipped.  Either way the handler responds
201 with the created transaction. -/
def postTransaction (s : MemStorage) (ins : InsertTransaction) :
    MemStorage × Nat × Transaction :=
  let created := createTransaction s ins
  match getAccount created.1 ins.accountId with
  | some account =>
    let newBalance :=
      match ins.type with
      | TxType.income => account.balance + ins.amount
      | TxType.expense => account.balance - ins.amount
    ((updateAccountBalance created.1 ins.accountId newBalance).1, (201, created.2))
  | none => (created.1, (201, created.2))

/-- GET /api/budgets/progress/:yearMonth handler core, parameterized by the
month boundaries computed by date-fns (startOfMonth / endOfMonth): fetch the
month's transactions, keep the expenses, sum amounts per categoryId into the
categorySpent record (the `if (!transaction.categoryId) return` falsy check
skips both a missing categoryId and the value 0), then map every budget id to
`categorySpent[budget.categoryId] || 0`. -/
def budgetProgress (s : MemStorage) (userId : Nat) (monthStart monthEnd : Int) :
    List (Nat × ℚ) :=
  let transactions := getTransactionsByDateRange s userId monthStart monthEnd
  let budgets := getBudgetsByUserId s userId
  let expenseTransactions := transactions.filter (fun t => t.type == TxType.expense)
  let categorySpent :=
    expenseTransactions.foldl
      (fun acc t =>
        match t.categoryId with
        | none => acc
        | some c =>
          if c = 0 then acc
          else mapSet acc c ((mapGet acc c).getD 0 + t.amount))
      []
  budgets.foldl
    (fun result budget =>
      mapSet result budget.id ((mapGet categorySpent budget.categoryId).getD 0))
    []

/-- Response shape of GET /api/summary (monthlyData, the static placeholder
chart series, is omitted: the spec marks it an explicit external stub). -/
structure Summary where
  totalBalance : ℚ
  balanceChange : ℚ
  monthlyIncome : ℚ
  incomeChange : ℚ
  monthlyExpenses : ℚ
  expensesChange : ℚ
  monthlySavings : ℚ
  savingsChange : ℚ
deriving DecidableEq

/-- GET /api/summary handler core, parameterized by the current-month and
previous-month boundaries computed by date-fns. -/
def getSummary (s : MemStorage) (userId : Nat)
    (curStart curEnd prevStart prevEnd : Int) : Summary :=
  let currentMonthTransactions := getTransactionsByDateRange s userId curStart curEnd
  let prevMonthTransactions := getTransactionsByDateRange s userId prevStart prevEnd
  let currentIncome :=
    (currentMonthTransactions.filter (fun t => t.type == TxType.income)).foldl
      (fun sum t => sum + t.amount) 0
  let currentExpenses :=
    (currentMonthTransactions.filter (fun t => t.type == TxType.expense)).foldl
      (fun sum t => sum + t.amount) 0
  let currentSavings : ℚ := currentIncome - currentExpenses
  let prevIncome :=
    (prevMonthTransactions.filter (fun t => t.type == TxType.income)).foldl
      (fun sum t => sum + t.amount) 0
  let prevExpenses :=
    (prevMonthTransactions.filter (fun t => t.type == TxType.expense)).foldl
      (fun sum t => sum + t.amount) 0
  let prevSavings : ℚ := prevIncome - prevExpenses
  let incomeChange :=
    if prevIncome = 0 then 0 else (currentIncome - prevIncome) / prevIncome * 100
  let expensesChange :=
    if prevExpenses = 0 then 0 else (currentExpenses - prevExpenses) / prevExpenses * 100
  let savingsChange :=
    if prevSavings = 0 then 0 else (currentSavings - prevSavings) / prevSavings * 100
  let accounts := getAccountsByUserId s userId
  let totalBalance := accounts.foldl (fun sum account => sum + account.balance) 0
  { totalBalance := totalBalance, balanceChange := 5 / 2,
    monthlyIncome := currentIncome, incomeChange := incomeChange,
    monthlyExpenses := currentExpenses, expensesChange := expensesChange,
    monthlySavings := currentSavings, savingsChange := savingsChange }

/-- The start-date computation a GET /api/transactions timeFrame value selects:
`daysBack n` stands for subDays(now, n) and `startOfYear` for
new Date(now.getFullYear(), 0, 1). -/
inductive StartDateSpec where
  | daysBack (n : Nat)
  | startOfYear
deriving DecidableEq

/-- The switch on req.query.timeFrame in the GET /api/transactions handler:
"7days" | "30days" | "90days" | "year" select their computation, any other
value falls to the default 7-day window. -/
def timeFrameStart (timeFrame : String) : StartDateSpec :=
  if timeFrame = "7days" then StartDateSpec.daysBack 7
  else if timeFrame = "30days" then StartDateSpec.daysBack 30
  else if timeFrame = "90days" then StartDateSpec.daysBack 90
  else if timeFrame = "year" then StartDateSpec.startOfYear
  else StartDateSpec.daysBack 7

/-- A sequence of createUser calls, threading the store; each element carries
the insert payload and the `new Date()` timestamp of its call. -/
def createUsersSeq : MemStorage → List (InsertUser × Int) → MemStorage × List User
  | s, [] => (s, [])
  | s, i :: rest =>
    let p := createUser s i.1 i.2
    let q := createUsersSeq p.1 rest
    (q.1, p.2 :: q.2)

/-- A sequence of createAccount calls, threading the store. -/
def createAccountsSeq : MemStorage → List InsertAccount → MemStorage × List Account
  | s, [] => (s, [])
  | s, i :: rest =>
    let p := createAccount s i
    let q := createAccountsSeq p.1 rest
    (q.1, p.2 :: q.2)

/-- A sequence of createCategory calls, threading the store. -/
def createCategoriesSeq : MemStorage → List InsertCategory → MemStorage × List Category
  | s, [] => (s, [])
  | s, i :: rest =>
    let p := createCategory s i
    let q := createCategoriesSeq p.1 rest
    (q.1, p.2 :: q.2)

/-- A sequence of createTransaction calls, threading the store. -/
def createTransactionsSeq :
    MemStorage → List InsertTransaction → MemStorage × List Transaction
  | s, [] => (s, [])
  | s, i :: rest =>
    let p := createTransaction s i
    let q := createTransactionsSeq p.1 rest
    (q.1, p.2 :: q.2)

/-- A sequence of createBudget calls, threading the store. -/
def createBudgetsSeq : MemStorage → List InsertBudget → MemStorage × List Budget
  | s, [] => (s, [])
  | s, i :: rest =>
    let p := createBudget s i
    let q := createBudgetsSeq p.1 rest
    (q.1, p.2 :: q.2)

/-- Unfolding mapGet on a cons cell. -/
theorem mapGet_cons (p : Nat × α) (rest : List (Nat × α)) (k : Nat) :
    mapGet (p :: rest) k = if p.1 = k then some p.2 else mapGet rest k := by
  by_cases h : p.1 = k
  · simp [mapGet, List.find?_cons_of_pos, h]
  · simp [mapGet, List.find?_cons_of_neg, h]

/-- Looking up the key just set returns the new value. -/
theorem mapGet_mapSet_self (m : List (Nat × α)) (k : Nat) (v : α) :
    mapGet (mapSet m k v) k = some v := by
  induction m with
  | nil => simp [mapSet, mapGet]
  | cons p rest ih =>
    by_cases h : p.1 = k
    · simp [mapSet, h, mapGet_cons]
    · simp [mapSet, h, mapGet_cons, ih]

/-- Setting one key leaves every other key's lookup unchanged. -/
theorem mapGet_mapSet_ne (m : List (Nat × α)) (k j : Nat) (v : α) (h : j ≠ k) :
    mapGet (mapSet m k v) j = mapGet m j := by
  induction m with
  | nil => simp [mapSet, mapGet_cons, mapGet, Ne.symm h]
  | cons p rest ih =>
    by_cases hp : p.1 = k
    · simp [mapSet, hp, mapGet_cons, Ne.symm h, hp ▸ Ne.symm h]
    · simp [mapSet, hp, mapGet_cons, ih]

/-- The reduce((sum, t) => sum + t.amount, 0) pattern is the sum of amounts. -/
theorem foldl_amount_eq_sum (l : List Transaction) (a : ℚ) :
    l.foldl (fun sum t => sum + t.amount) a = a + (l.map (fun t => t.amount)).sum := by
  induction l generalizing a with
  | nil => simp
  | cons t rest ih => simp [ih, add_assoc]

/-- The reduce((sum, acc) => sum + acc.balance, 0) pattern is the sum of balances. -/
theorem foldl_balance_eq_sum (l : List Account) (a : ℚ) :
    l.foldl (fun sum account => sum + account.balance) a =
      a + (l.map (fun account => account.balance)).sum := by
  induction l generalizing a with
  | nil => simp
  | cons x rest ih => simp [ih, add_assoc]

/-- Running total read from the categorySpent fold: for a nonzero category id,
the accumulated value is the initial value plus the sum of the amounts of the
folded transactions carrying exactly that category id. -/
theorem spent_foldl_getD (l : List Transaction) (c : Nat) (hc : c ≠ 0) :
    ∀ init : List (Nat × ℚ),
      (mapGet
        (l.foldl
          (fun acc t =>
            match t.categoryId with
            | none => acc
            | some cid =>
              if cid = 0 then acc
              else mapSet acc cid ((mapGet acc cid).getD 0 + t.amount))
          init) c).getD 0 =
      (mapGet init c).getD 0 +
        ((l.filter (fun t => t.categoryId == some c)).map (fun t => t.amount)).sum := by
  induction l with
  | nil => intro init; simp
  | cons t rest ih =>
    intro init
    rcases h : t.categoryId with _ | cid
    · simp [h, ih]
    · by_cases h0 : cid = 0
      · simp [h, h0, ih, List.filter_cons, Ne.symm hc]
      · by_cases hcc : cid = c
        · subst hcc
          simp only [List.foldl_cons, List.filter_cons, h]
          rw [if_neg h0, ih, mapGet_mapSet_self]
          simp [add_assoc]
        · have hne : (t.categoryId == some c) = false := by
            simp [h]
            exact hcc
          simp only [List.foldl_cons, List.filter_cons, h, hne,
            Bool.false_eq_true, if_false]
          rw [if_neg h0, ih,
            mapGet_mapSet_ne _ _ _ _ (fun hce => hcc (Eq.symm hce))]
          simp [hcc]

/-- Folding budget entries whose ids all differ from k never changes lookup at k. -/
theorem budgets_foldl_get_of_notmem (g : Budget → ℚ) (l : List Budget) (k : Nat)
    (h : ∀ b ∈ l, b.id ≠ k) :
    ∀ init : List (Nat × ℚ),
      mapGet (l.foldl (fun result budget => mapSet result budget.id (g budget)) init) k =
        mapGet init k := by
  induction l with
  | nil => intro init; rfl
  | cons b rest ih =>
    intro init
    have hb : b.id ≠ k := h b (List.mem_cons_self b rest)
    have hrest : ∀ x ∈ rest, x.id ≠ k := fun x hx => h x (List.mem_cons_of_mem b hx)
    simp only [List.foldl_cons]
    rw [ih hrest, mapGet_mapSet_ne]
    exact fun hke => hb hke.symm

/-- With pairwise-distinct budget ids, the budgets fold maps each budget's id
to the value computed for that budget. -/
theorem budgets_foldl_get (g : Budget → ℚ) (l : List Budget) (b : Budget)
    (hb : b ∈ l) (hnd : (l.map (fun x => x.id)).Nodup) :
    ∀ init : List (Nat × ℚ),
      mapGet (l.foldl (fun result budget => mapSet result budget.id (g budget)) init) b.id =
        some (g b) := by
  induction l with
  | nil => cases hb
  | cons x rest ih =>
    intro init
    rcases List.mem_cons.mp hb with hbx | hbrest
    · subst hbx
      have hrest : ∀ y ∈ rest, y.id ≠ b.id := by
        intro y hy hne
        have : b.id ∈ rest.map (fun z => z.id) := hne ▸ List.mem_map_of_mem _ hy
        exact (List.nodup_cons.mp hnd).1 this
      simp only [List.foldl_cons]
      rw [budgets_foldl_get_of_notmem g rest b.id hrest, mapGet_mapSet_self]
    · simp only [List.foldl_cons]
      exact ih hbrest (List.nodup_cons.mp hnd).2 _

/-- The comparator (a, b) => b.date - a.date yields a list that is pairwise
descending by date. -/
theorem mergeSort_date_desc (l : List Transaction) :
    List.Pairwise (fun a b : Transaction => b.date ≤ a.date)
      (l.mergeSort (fun a b => decide (b.date ≤ a.date))) := by
  have h := @List.sorted_mergeSort Transaction (fun a b => decide (b.date ≤ a.date))
    (fun a b c hab hbc => by
      simp only [decide_eq_true_eq] at *
      exact le_trans hbc hab)
    (fun a b => by
      simp only [Bool.or_eq_true, decide_eq_true_eq]
      exact le_total b.date a.date) l
  exact h.imp (fun hab => of_decide_eq_true hab)

/-- Ids handed out by a run of createUser calls: the counter values in order. -/
theorem createUsersSeq_ids (l : List (InsertUser × Int)) :
    ∀ s : MemStorage,
      (createUsersSeq s l).2.map (fun u => u.id) =
        List.range' s.userIdCounter l.length := by
  induction l with
  | nil => intro s; rfl
  | cons i rest ih =>
    intro s
    simp only [createUsersSeq, List.map_cons, List.length_cons, List.range',
      List.cons.injEq]
    exact ⟨rfl, ih _⟩

/-- Ids handed out by a run of createAccount calls. -/
theorem createAccountsSeq_ids (l : List InsertAccount) :
    ∀ s : MemStorage,
      (createAccountsSeq s l).2.map (fun a => a.id) =
        List.range' s.accountIdCounter l.length := by
  induction l with
  | nil => intro s; rfl
  | cons i rest ih =>
    intro s
    simp only [createAccountsSeq, List.map_cons, List.length_cons, List.range',
      List.cons.injEq]
    exact ⟨rfl, ih _⟩

/-- Ids handed out by a run of createCategory calls. -/
theorem createCategoriesSeq_ids (l : List InsertCategory) :
    ∀ s : MemStorage,
      (createCategoriesSeq s l).2.map (fun c => c.id) =
        List.range' s.categoryIdCounter l.length := by
  induction l with
  | nil => intro s; rfl
  | cons i rest ih =>
    intro s
    simp only [createCategoriesSeq, List.map_cons, List.length_cons, List.range',
      List.cons.injEq]
    exact ⟨rfl, ih _⟩

/-- Ids handed out by a run of createTransaction calls. -/
theorem createTransactionsSeq_ids (l : List InsertTransaction) :
    ∀ s : MemStorage,
      (createTransactionsSeq s l).2.map (fun t => t.id) =
        List.range' s.transactionIdCounter l.length := by
  induction l with
  | nil => intro s; rfl
  | cons i rest ih =>
    intro s
    simp only [createTransactionsSeq, List.map_cons, List.length_cons, List.range',
      List.cons.injEq]
    exact ⟨rfl, ih _⟩

/-- Ids handed out by a run of createBudget calls. -/
theorem createBudgetsSeq_ids (l : List InsertBudget) :
    ∀ s : MemStorage,
      (createBudgetsSeq s l).2.map (fun b => b.id) =
        List.range' s.budgetIdCounter l.length := by
  induction l with
  | nil => intro s; rfl
  | cons i rest ih =>
    intro s
    simp only [createBudgetsSeq, List.map_cons, List.length_cons, List.range',
      List.cons.injEq]
    exact ⟨rfl, ih _⟩

/-- A list of ids equal to 1, ..., n is duplicate-free and positive throughout. -/
theorem ids_range_facts {β : Type} (f : β → Nat) (l : List β) (n : Nat)
    (h : l.map f = List.range' 1 n) :
    (l.map f).Nodup ∧ ∀ x ∈ l, 0 < f x := by
  constructor
  · rw [h]
    exact List.nodup_range' 1 n
  · intro x hx
    have hmem : f x ∈ l.map f := List.mem_map_of_mem f hx
    rw [h] at hmem
    rcases List.mem_range'.mp hmem with ⟨i, _, hi⟩
    omega

/-- Concrete demo user for witness scenarios. -/
def sampleUser : User :=
  { id := 1, username := "demo", password := "password", email := "demo@example.com",
    name := "Demo User", createdAt := 0 }

/-- Concrete checking account for witness scenarios. -/
def sampleChecking : Account :=
  { id := 1, userId := 1, name := "Checking Account", type := "checking",
    balance := 5000, isConnected := false }

/-- Concrete savings account for witness scenarios. -/
def sampleSavings : Account :=
  { id := 2, userId := 1, name := "Savings Account", type := "savings",
    balance := 3254, isConnected := false }

/-- Expense of 50 in category 1 dated 10. -/
def sampleTxStart : Transaction :=
  { id := 1, userId := 1, accountId := 1, categoryId := some 1, amount := 50,
    description := "Groceries", date := 10, type := TxType.expense,
    paymentMethod := "Debit Card" }

/-- Expense of 30 in category 1 dated 20. -/
def sampleTxEnd : Transaction :=
  { id := 2, userId := 1, accountId := 1, categoryId := some 1, amount := 30,
    description := "Dinner", date := 20, type := TxType.expense,
    paymentMethod := "Credit Card" }

/-- Expense of 7 without a category, dated 15. -/
def sampleTxNoCat : Transaction :=
  { id := 3, userId := 1, accountId := 1, categoryId := none, amount := 7,
    description := "Cash tip", date := 15, type := TxType.expense,
    paymentMethod := "Cash" }

/-- Income of 2620 dated 12. -/
def sampleTxIncome : Transaction :=
  { id := 4, userId := 1, accountId := 1, categoryId := some 1, amount := 2620,
    description := "Paycheck", date := 12, type := TxType.income,
    paymentMethod := "Direct Deposit" }

/-- Budget of 200 on category 1. -/
def sampleBudget : Budget :=
  { id := 1, userId := 1, categoryId := 1, amount := 200, period := "monthly",
    startDate := 0, endDate := 100 }

/-- A populated store used by the concrete witness scenarios. -/
def sampleStore : MemStorage :=
  { users := [(1, sampleUser)],
    accounts := [(1, sampleChecking), (2, sampleSavings)],
    categories := [],
    transactions := [(1, sampleTxStart), (2, sampleTxEnd), (3, sampleTxNoCat),
      (4, sampleTxIncome)],
    budgets := [(1, sampleBudget)],
    userIdCounter := 2, accountIdCounter := 3, categoryIdCounter := 1,
    transactionIdCounter := 5, budgetIdCounter := 2 }

/-- Income insert of 100 against account 1, used as a witness request. -/
def sampleIncomeIns : InsertTransaction :=
  { userId := 1, accountId := 1, categoryId := some 1, amount := 100,
    description := "Bonus", date := 30, type := TxType.income,
    paymentMethod := "Direct Deposit" }

/-- Insert referencing the nonexistent account 99, used as a witness request. -/
def sampleOrphanIns : InsertTransaction :=
  { userId := 1, accountId := 99, categoryId := none, amount := 100,
    description := "Orphan", date := 30, type := TxType.expense,
    paymentMethod := "Cash" }

/-- C3: for an account id present in the store and any new balance b,
updateAccountBalance returns the stored account with its balance field
replaced by b and every other field untouched, stores the same record under
the id, leaves every other account's lookup unchanged, and changes no other
entity map and no counter. -/
theorem updateAccountBalance_frame (s : MemStorage) (id : Nat) (b : ℚ)
    (a : Account) (h : getAccount s id = some a) :
    (updateAccountBalance s id b).2 = Except.ok { a with balance := b } ∧
    getAccount (updateAccountBalance s id b).1 id = some { a with balance := b } ∧
    (∀ j, j ≠ id → getAccount (updateAccountBalance s id b).1 j = getAccount s j) ∧
    (updateAccountBalance s id b).1.users = s.users ∧
    (updateAccountBalance s id b).1.categories = s.categories ∧
    (updateAccountBalance s id b).1.transactions = s.transactions ∧
    (updateAccountBalance s id b).1.budgets = s.budgets ∧
    (updateAccountBalance s id b).1.userIdCounter = s.userIdCounter ∧
    (updateAccountBalance s id b).1.accountIdCounter = s.accountIdCounter ∧
    (updateAccountBalance s id b).1.categoryIdCounter = s.categoryIdCounter ∧
    (updateAccountBalance s id b).1.transactionIdCounter = s.transactionIdCounter ∧
    (updateAccountBalance s id b).1.budgetIdCounter = s.budgetIdCounter := by
  have h' : mapGet s.accounts id = some a := h
  refine ⟨?_, ?_, ?_, ?_, ?_, ?_, ?_, ?_, ?_, ?_, ?_, ?_⟩
  · simp [updateAccountBalance, h']
  · simp [updateAccountBalance, getAccount, h', mapGet_mapSet_self]
  · intro j hj
    simp [updateAccountBalance, getAccount, h', mapGet_mapSet_ne _ _ _ _ hj]
  all_goals simp [updateAccountBalance, h']

/-- Witness for C3: on the sample store, setting account 1's balance to 100
returns that account with balance 100 and leaves account 2's lookup intact. -/
theorem updateAccountBalance_frame_witness :
    getAccount sampleStore 1 = some sampleChecking ∧
    (updateAccountBalance sampleStore 1 100).2 =
      Except.ok { sampleChecking with balance := 100 } ∧
    getAccount (updateAccountBalance sampleStore 1 100).1 2 =
      getAccount sampleStore 2 := by
  have h := updateAccountBalance_frame sampleStore 1 100 sampleChecking (by decide)
  exact ⟨by decide, h.1, h.2.2.1 2 (by decide)⟩

/-- C4: updateAccountBalance fails, with the NotFound error naming the id,
exactly when the id is absent from the accounts map, and on failure the whole
store is returned unchanged. -/
theorem updateAccountBalance_notFound (s : MemStorage) (id : Nat) (b : ℚ) :
    ((updateAccountBalance s id b).2 = Except.error (StorageError.notFound id) ↔
      getAccount s id = none) ∧
    (getAccount s id = none → (updateAccountBalance s id b).1 = s) := by
  refine ⟨?_, ?_⟩ <;>
    cases hm : mapGet s.accounts id <;>
    simp [updateAccountBalance, getAccount, hm]

/-- Witness for C4: on the sample store, id 99 is absent, the update fails
with NotFound 99, and the store is unchanged. -/
theorem updateAccountBalance_notFound_witness :
    getAccount sampleStore 99 = none ∧
    (updateAccountBalance sampleStore 99 100).2 =
      Except.error (StorageError.notFound 99) ∧
    (updateAccountBalance sampleStore 99 100).1 = sampleStore := by
  have h := updateAccountBalance_notFound sampleStore 99 100
  exact ⟨by decide, h.1.mpr (by decide), h.2 (by decide)⟩

/-- C1: when the referenced account exists, the POST /api/transactions handler
leaves that account with its old balance plus the amount for an income
transaction and minus the amount for an expense transaction. -/
theorem postTransaction_updates_balance (s : MemStorage)
    (ins : InsertTransaction) (a : Account)
    (h : getAccount s ins.accountId = some a) :
    getAccount (postTransaction s ins).1 ins.accountId =
      some { a with balance :=
        if ins.type = TxType.income then a.balance + ins.amount
        else a.balance - ins.amount } := by
  have h' : mapGet s.accounts ins.accountId = some a := h
  cases hty : ins.type <;>
    simp [postTransaction, createTransaction, getAccount, updateAccountBalance,
      h', hty, mapGet_mapSet_self]

/-- Witness for C1: posting the sample income of 100 against account 1 of the
sample store leaves that account with balance 5100. -/
theorem postTransaction_updates_balance_witness :
    getAccount sampleStore 1 = some sampleChecking ∧
    getAccount (postTransaction sampleStore sampleIncomeIns).1 1 =
      some { sampleChecking with balance := 5100 } := by
  have h := postTransaction_updates_balance sampleStore sampleIncomeIns
    sampleChecking (by decide)
  exact ⟨by decide, h.trans (by norm_num [sampleIncomeIns, sampleChecking,
    Account.mk.injEq])⟩

/-- C10: when the referenced account does not exist, the handler still
responds 201, the transaction is created under the next transaction id and is
retrievable, and the accounts map is left completely unchanged (the balance
update is silently skipped instead of raising NotFound). -/
theorem postTransaction_missing_account (s : MemStorage)
    (ins : InsertTransaction) (h : getAccount s ins.accountId = none) :
    (postTransaction s ins).2.1 = 201 ∧
    (postTransaction s ins).1.accounts = s.accounts ∧
    (postTransaction s ins).2.2.id = s.transactionIdCounter ∧
    getTransaction (postTransaction s ins).1 s.transactionIdCounter =
      some (postTransaction s ins).2.2 := by
  have h' : mapGet s.accounts ins.accountId = none := h
  refine ⟨?_, ?_, ?_, ?_⟩ <;>
    simp [postTransaction, createTransaction, getAccount, getTransaction, h',
      mapGet_mapSet_self]

/-- Witness for C10: posting the orphan insert (account 99) on the sample
store responds 201, keeps every account as it was, and stores the transaction
under id 5. -/
theorem postTransaction_missing_account_witness :
    getAccount sampleStore 99 = none ∧
    (postTransaction sampleStore sampleOrphanIns).2.1 = 201 ∧
    (postTransaction sampleStore sampleOrphanIns).1.accounts =
      sampleStore.accounts ∧
    getTransaction (postTransaction sampleStore sampleOrphanIns).1 5 =
      some (postTransaction sampleStore sampleOrphanIns).2.2 := by
  have h := postTransaction_missing_account sampleStore sampleOrphanIns (by decide)
  exact ⟨by decide, h.1, h.2.1, h.2.2.2⟩

/-- C5: for each of the five entity kinds, N sequential create calls on a
fresh store hand out exactly the ids 1, 2, ..., N in call order, so the ids
are pairwise distinct positive integers. -/
theorem sequential_create_ids (us : List (InsertUser × Int))
    (acs : List InsertAccount) (ccs : List InsertCategory)
    (ts : List InsertTransaction) (bs : List InsertBudget) :
    ((createUsersSeq emptyStorage us).2.map (fun u => u.id) =
        List.range' 1 us.length ∧
      ((createUsersSeq emptyStorage us).2.map (fun u => u.id)).Nodup ∧
      ∀ u ∈ (createUsersSeq emptyStorage us).2, 0 < u.id) ∧
    ((createAccountsSeq emptyStorage acs).2.map (fun a => a.id) =
        List.range' 1 acs.length ∧
      ((createAccountsSeq emptyStorage acs).2.map (fun a => a.id)).Nodup ∧
      ∀ a ∈ (createAccountsSeq emptyStorage acs).2, 0 < a.id) ∧
    ((createCategoriesSeq emptyStorage ccs).2.map (fun c => c.id) =
        List.range' 1 ccs.length ∧
      ((createCategoriesSeq emptyStorage ccs).2.map (fun c => c.id)).Nodup ∧
      ∀ c ∈ (createCategoriesSeq emptyStorage ccs).2, 0 < c.id) ∧
    ((createTransactionsSeq emptyStorage ts).2.map (fun t => t.id) =
        List.range' 1 ts.length ∧
      ((createTransactionsSeq emptyStorage ts).2.map (fun t => t.id)).Nodup ∧
      ∀ t ∈ (createTransactionsSeq emptyStorage ts).2, 0 < t.id) ∧
    ((createBudgetsSeq emptyStorage bs).2.map (fun b => b.id) =
        List.range' 1 bs.length ∧
      ((createBudgetsSeq emptyStorage bs).2.map (fun b => b.id)).Nodup ∧
      ∀ b ∈ (createBudgetsSeq emptyStorage bs).2, 0 < b.id) := by
  have hu := createUsersSeq_ids us emptyStorage
  have ha := createAccountsSeq_ids acs emptyStorage
  have hc := createCategoriesSeq_ids ccs emptyStorage
  have ht := createTransactionsSeq_ids ts emptyStorage
  have hb := createBudgetsSeq_ids bs emptyStorage
  exact ⟨⟨hu, ids_range_facts _ _ _ hu⟩, ⟨ha, ids_range_facts _ _ _ ha⟩,
    ⟨hc, ids_range_facts _ _ _ hc⟩, ⟨ht, ids_range_facts _ _ _ ht⟩,
    ⟨hb, ids_range_facts _ _ _ hb⟩⟩

/-- C6: getTransactionsByDateRange has inclusive bounds on both ends: every
returned transaction's date lies in [startDate, endDate], and every stored
transaction of the user whose date lies in [startDate, endDate] (in
particular one dated exactly startDate or exactly endDate) is returned. -/
theorem getTransactionsByDateRange_inclusive (s : MemStorage) (userId : Nat)
    (startDate endDate : Int) :
    (∀ t ∈ getTransactionsByDateRange s userId startDate endDate,
      startDate ≤ t.date ∧ t.date ≤ endDate) ∧
    (∀ t ∈ mapValues s.transactions, t.userId = userId →
      startDate ≤ t.date → t.date ≤ endDate →
      t ∈ getTransactionsByDateRange s userId startDate endDate) := by
  constructor
  · intro t ht
    have hmem := (List.mergeSort_perm _ _).mem_iff.mp ht
    have hf := (List.mem_filter.mp hmem).2
    simp only [Bool.and_eq_true, decide_eq_true_eq] at hf
    exact ⟨hf.1.2, hf.2⟩
  · intro t ht hu hs he
    apply (List.mergeSort_perm _ _).mem_iff.mpr
    exact List.mem_filter.mpr ⟨ht, by simp [hu, hs, he]⟩

/-- Witness for C6: on the sample store with range [10, 20], the transactions
dated exactly 10 and exactly 20 are both returned. -/
theorem getTransactionsByDateRange_inclusive_witness :
    sampleTxStart ∈ mapValues sampleStore.transactions ∧
    sampleTxEnd ∈ mapValues sampleStore.transactions ∧
    sampleTxStart ∈ getTransactionsByDateRange sampleStore 1 10 20 ∧
    sampleTxEnd ∈ getTransactionsByDateRange sampleStore 1 10 20 := by
  refine ⟨by decide, by decide, ?_, ?_⟩
  · exact (getTransactionsByDateRange_inclusive sampleStore 1 10 20).2
      sampleTxStart (by decide) (by decide) (by decide) (by decide)
  · exact (getTransactionsByDateRange_inclusive sampleStore 1 10 20).2
      sampleTxEnd (by decide) (by decide) (by decide) (by decide)

/-- C7: getTransactionsByUserId returns exactly the user's stored transactions
(a permutation of the filtered store) in descending order by date, and
getRecentTransactions is its length-limited prefix. -/
theorem getTransactionsByUserId_desc_recent (s : MemStorage) (userId : Nat) :
    (getTransactionsByUserId s userId).Perm
      ((mapValues s.transactions).filter (fun t => t.userId == userId)) ∧
    List.Pairwise (fun a b : Transaction => b.date ≤ a.date)
      (getTransactionsByUserId s userId) ∧
    ∀ n : Nat, getRecentTransactions s userId n =
      (getTransactionsByUserId s userId).take n := by
  refine ⟨List.mergeSort_perm _ _, mergeSort_date_desc _, fun n => rfl⟩

/-- C2: for a budget of the user (budget ids being pairwise distinct and the
category id positive, as the id-assignment scheme guarantees), budget
progress maps the budget's id to the sum of the amounts of the user's
expense transactions of the month carrying exactly the budget's category id;
transactions without a categoryId are in no group, and the sum of an empty
group is 0. -/
theorem budgetProgress_spec (s : MemStorage) (userId : Nat)
    (monthStart monthEnd : Int) (b : Budget)
    (hmem : b ∈ getBudgetsByUserId s userId)
    (hnd : ((getBudgetsByUserId s userId).map (fun x => x.id)).Nodup)
    (hcat : b.categoryId ≠ 0) :
    mapGet (budgetProgress s userId monthStart monthEnd) b.id =
      some ((((getTransactionsByDateRange s userId monthStart monthEnd).filter
        (fun t => t.type == TxType.expense && t.categoryId == some b.categoryId)).map
          (fun t => t.amount)).sum) := by
  have hres := budgets_foldl_get
    (fun budget =>
      (mapGet
        (((getTransactionsByDateRange s userId monthStart monthEnd).filter
            (fun t => t.type == TxType.expense)).foldl
          (fun acc t =>
            match t.categoryId with
            | none => acc
            | some cid =>
              if cid = 0 then acc
              else mapSet acc cid ((mapGet acc cid).getD 0 + t.amount))
          [])
        budget.categoryId).getD 0)
    (getBudgetsByUserId s userId) b hmem hnd []
  have hspent := spent_foldl_getD
    ((getTransactionsByDateRange s userId monthStart monthEnd).filter
      (fun t => t.type == TxType.expense))
    b.categoryId hcat []
  have hgoal : mapGet (budgetProgress s userId monthStart monthEnd) b.id =
      some ((mapGet
        (((getTransactionsByDateRange s userId monthStart monthEnd).filter
            (fun t => t.type == TxType.expense)).foldl
          (fun acc t =>
            match t.categoryId with
            | none => acc
            | some cid =>
              if cid = 0 then acc
              else mapSet acc cid ((mapGet acc cid).getD 0 + t.amount))
          [])
        b.categoryId).getD 0) := hres
  rw [hgoal, hspent]
  have hnil : (mapGet ([] : List (Nat × ℚ)) b.categoryId).getD 0 = 0 := rfl
  rw [hnil, zero_add, List.filter_filter]
  have hcomm : (fun t : Transaction =>
      (t.categoryId == some b.categoryId) && (t.type == TxType.expense)) =
      (fun t : Transaction =>
        (t.type == TxType.expense) && (t.categoryId == some b.categoryId)) := by
    funext t
    exact Bool.and_comm _ _
  rw [hcomm]

/-- Witness for C2: on the sample store and month window [0, 100], budget 1
on category 1 is mapped to 80 = 50 + 30; the uncategorized expense and the
income transaction contribute nothing. -/
theorem budgetProgress_spec_witness :
    sampleBudget ∈ getBudgetsByUserId sampleStore 1 ∧
    ((getBudgetsByUserId sampleStore 1).map (fun x => x.id)).Nodup ∧
    mapGet (budgetProgress sampleStore 1 0 100) 1 = some 80 := by
  have h := budgetProgress_spec sampleStore 1 0 100 sampleBudget (by decide)
    (by decide) (by decide)
  refine ⟨by decide, by decide, h.trans ?_⟩
  norm_num [getTransactionsByDateRange, sampleStore, mapValues, sampleTxStart,
    sampleTxEnd, sampleTxNoCat, sampleTxIncome, sampleBudget, List.mergeSort,
    List.filter_cons, List.filter_nil,
    show (TxType.income == TxType.expense) = false from rfl,
    show (TxType.expense == TxType.expense) = true from rfl,
    show ((none : Option Nat) == some 1) = false from rfl,
    show ((some (1 : Nat)) == some 1) = true from rfl]

/-- C8: in the monthly summary each of the three percent-change figures is
((current − previous) / previous) × 100 guarded to exactly 0 when the
previous month's figure is 0, with income, expenses and savings computed as
the filtered sums over the two month windows. -/
theorem getSummary_percent_changes (s : MemStorage) (userId : Nat)
    (curStart curEnd prevStart prevEnd : Int) :
    ((getSummary s userId curStart curEnd prevStart prevEnd).incomeChange =
      if (((getTransactionsByDateRange s userId prevStart prevEnd).filter
            (fun t => t.type == TxType.income)).map (fun t => t.amount)).sum = 0
      then 0
      else ((((getTransactionsByDateRange s userId curStart curEnd).filter
              (fun t => t.type == TxType.income)).map (fun t => t.amount)).sum -
            (((getTransactionsByDateRange s userId prevStart prevEnd).filter
              (fun t => t.type == TxType.income)).map (fun t => t.amount)).sum) /
          (((getTransactionsByDateRange s userId prevStart prevEnd).filter
            (fun t => t.type == TxType.income)).map (fun t => t.amount)).sum * 100) ∧
    ((getSummary s userId curStart curEnd prevStart prevEnd).expensesChange =
      if (((getTransactionsByDateRange s userId prevStart prevEnd).filter
            (fun t => t.type == TxType.expense)).map (fun t => t.amount)).sum = 0
      then 0
      else ((((getTransactionsByDateRange s userId curStart curEnd).filter
              (fun t => t.type == TxType.expense)).map (fun t => t.amount)).sum -
            (((getTransactionsByDateRange s userId prevStart prevEnd).filter
              (fun t => t.type == TxType.expense)).map (fun t => t.amount)).sum) /
          (((getTransactionsByDateRange s userId prevStart prevEnd).filter
            (fun t => t.type == TxType.expense)).map (fun t => t.amount)).sum * 100) ∧
    ((getSummary s userId curStart curEnd prevStart prevEnd).savingsChange =
      if (((getTransactionsByDateRange s userId prevStart prevEnd).filter
            (fun t => t.type == TxType.income)).map (fun t => t.amount)).sum -
          (((getTransactionsByDateRange s userId prevStart prevEnd).filter
            (fun t => t.type == TxType.expense)).map (fun t => t.amount)).sum = 0
      then 0
      else (((((getTransactionsByDateRange s userId curStart curEnd).filter
              (fun t => t.type == TxType.income)).map (fun t => t.amount)).sum -
            (((getTransactionsByDateRange s userId curStart curEnd).filter
              (fun t => t.type == TxType.expense)).map (fun t => t.amount)).sum) -
            ((((getTransactionsByDateRange s userId prevStart prevEnd).filter
              (fun t => t.type == TxType.income)).map (fun t => t.amount)).sum -
            (((getTransactionsByDateRange s userId prevStart prevEnd).filter
              (fun t => t.type == TxType.expense)).map (fun t => t.amount)).sum)) /
          ((((getTransactionsByDateRange s userId prevStart prevEnd).filter
              (fun t => t.type == TxType.income)).map (fun t => t.amount)).sum -
            (((getTransactionsByDateRange s userId prevStart prevEnd).filter
              (fun t => t.type == TxType.expense)).map (fun t => t.amount)).sum) * 100) := by
  have hb : ∀ l : List Transaction,
      l.foldl (fun sum t => sum + t.amount) 0 = (l.map (fun t => t.amount)).sum := by
    intro l
    rw [foldl_amount_eq_sum, zero_add]
  refine ⟨?_, ?_, ?_⟩ <;> simp only [getSummary, hb]

/-- C9 counterexample: the literal time-frame value "year-to-date" is not
recognized by the switch, so it selects the default 7-day window rather than
the start of the current year. -/
theorem timeFrameStart_year_to_date_default :
    timeFrameStart "year-to-date" = StartDateSpec.daysBack 7 ∧
    StartDateSpec.daysBack 7 ≠ StartDateSpec.startOfYear := by
  exact ⟨by decide, by decide⟩

/-- C9 (amended): the recognized time-frame values are "7days", "30days",
"90days" and "year" (the last selecting the start-of-current-year
computation); every other value, including "year-to-date", yields the 7-day
window. -/
theorem timeFrameStart_spec :
    timeFrameStart "7days" = StartDateSpec.daysBack 7 ∧
    timeFrameStart "30days" = StartDateSpec.daysBack 30 ∧
    timeFrameStart "90days" = StartDateSpec.daysBack 90 ∧
    timeFrameStart "year" = StartDateSpec.startOfYear ∧
    ∀ tf : String, tf ≠ "7days" → tf ≠ "30days" → tf ≠ "90days" → tf ≠ "year" →
      timeFrameStart tf = StartDateSpec.daysBack 7 := by
  refine ⟨by decide, by decide, by decide, by decide, ?_⟩
  intro tf h7 h30 h90 hy
  simp [timeFrameStart, h7, h30, h90, hy]

/-- Witness for C9 (amended): the unrecognized value "all" yields the 7-day
window. -/
theorem timeFrameStart_spec_witness :
    timeFrameStart "all" = StartDateSpec.daysBack 7 :=
  timeFrameStart_spec.2.2.2.2 "all" (by decide) (by decide) (by decide)
    (by decide)

end FinanceApp
